import Mathlib

/-!
Verification of the password-based authentication workflow in
`src/Controllers/Passport/User.PassAuth.controller.js`.

The controller functions (`PassportRegister`, `PassportLogIn`,
`PassportLogOut`, `ForgotPassword`, `ResetPassword`) are embedded as pure
Lean functions.  The credential store is a list of user records threaded
explicitly; randomness (`crypto.randomBytes`), the passport `local`
verification strategy, session destruction and e-mail dispatch are
parameters of the embedded functions, since they are external effects.
The validator utilities (`validation.js`) are not part of the provided
sources and are modelled from the spec (section 4.1).
-/

namespace PassAuth

/-- A persisted user record (spec section 3, data model `User`).
`tokenExpiration` is a millisecond timestamp, as produced by `Date.now()`. -/
structure UserRec where
  userid : Nat
  email : String
  password : String
  role : String
  phoneNumber : String
  resetToken : Option String
  tokenExpiration : Option Nat
deriving Repr, DecidableEq

/-- The credential store: a collection of user records.
`findOne` is modelled by `List.find?`. -/
abbrev Store := List UserRec

/-- `User.findOne({ where: { email } })`. -/
def findByEmail (s : Store) (e : String) : Option UserRec :=
  s.find? (fun u => u.email = e)

/-- `user.update(fields)`: replace the fields of the record with
`userid = uid` in the store, leaving every other record unchanged. -/
def updateUser (s : Store) (uid : Nat) (f : UserRec → UserRec) : Store :=
  s.map (fun u => if u.userid = uid then f u else u)

/-- Split a character list on a separator character (the character-level
`String.split` used by the modelled validators). -/
def splitOnChar (sep : Char) : List Char → List (List Char)
  | [] => [[]]
  | c :: cs =>
      let r := splitOnChar sep cs
      if c = sep then [] :: r
      else
        match r with
        | [] => [[c]]
        | h :: t => (c :: h) :: t

/-- Modelled from the spec: `validateEmail` from the missing
`utils/validation.js`.  "fails with InvalidFormat unless the string matches
a standard `local@domain.tld` pattern": exactly one `@`, a nonempty local
part, and a domain consisting of at least two nonempty dot-separated
labels. -/
def validateEmail (e : String) : Bool :=
  match splitOnChar '@' e.data with
  | [l, d] =>
      !l.isEmpty &&
        (let labels := splitOnChar '.' d
         decide (2 ≤ labels.length) && labels.all (fun p => !p.isEmpty))
  | _ => false

/-- Modelled from the spec: the "special character" class of the password
rule in the missing `utils/validation.js` — a character that is neither a
letter nor a digit. -/
def isSpecialChar (c : Char) : Bool :=
  !c.isAlpha && !c.isDigit

/-- Modelled from the spec: `validatePassword` from the missing
`utils/validation.js`.  "fails with WeakPassword unless length ≥ 6 AND
contains at least one uppercase letter, one lowercase letter, one digit,
one special character." -/
def validatePassword (p : String) : Bool :=
  decide (6 ≤ p.data.length) && p.data.any Char.isUpper &&
    p.data.any Char.isLower && p.data.any Char.isDigit &&
    p.data.any isSpecialChar

/-- Modelled from the spec: `validatePhoneNumber` from the missing
`utils/validation.js`.  "fails with InvalidFormat unless it matches `+91`
followed by exactly 10 digits." -/
def validatePhoneNumber (p : String) : Bool :=
  match p.data with
  | '+' :: '9' :: '1' :: rest => decide (rest.length = 10) && rest.all Char.isDigit
  | _ => false

/-- A request-body field: `none` models an absent (`undefined`) field. -/
abbrev Field := Option String

/-- A field is missing when absent or empty (spec: "fails with
MissingField when any of a caller-specified field set is absent/empty"). -/
def fieldMissing (f : Field) : Bool :=
  match f with
  | none => true
  | some v => v.data.isEmpty

/-- Modelled from the spec: `validateRequiredFields` from the missing
`utils/validation.js`.  Returns `none` when every named field is present
and nonempty, otherwise a message naming the missing fields (the exact
wording of the message is not in the sources). -/
def validateRequiredFields (fields : List (String × Field)) : Option String :=
  let missing := (fields.filter (fun p => fieldMissing p.2)).map Prod.fst
  if missing.isEmpty then none
  else some ("Missing required fields: " ++ String.intercalate ", " missing)

/-- Optional-field version of `validateEmail`: an absent field never
passes the format check (in JS, the regex test on `undefined` fails). -/
def validateEmailF (e : Field) : Bool :=
  match e with
  | none => false
  | some v => validateEmail v

/-- Optional-field version of `validatePassword`. -/
def validatePasswordF (p : Field) : Bool :=
  match p with
  | none => false
  | some v => validatePassword v

/-- Optional-field version of `validatePhoneNumber`. -/
def validatePhoneNumberF (p : Field) : Bool :=
  match p with
  | none => false
  | some v => validatePhoneNumber v

/-- The weak-password message of the controller (lines 23, 63, 160). -/
def weakPasswordMsg : String :=
  "Password must be at least 6 characters long, include uppercase and lowercase letters, a number, and a special character."

/-- The `for (const {isValid, error} of validationChecks) if (!isValid) throw`
loop: the first failing check's message, `none` when all checks pass. -/
def firstError : List (Bool × String) → Option String
  | [] => none
  | (ok, e) :: rest => if ok then firstError rest else some e

/-- Outcome of `ResetPassword`: either a thrown `ApiError` (wrapped by
`asyncHandler` into an error response) or the 200 acknowledgement. -/
inductive ResetResult where
  | err (status : Nat) (message : String)
  | ok (status : Nat) (message : String)
deriving Repr, DecidableEq

/-- The predicate of the reset lookup: `resetToken: token` together with
`tokenExpiration: { [Op.gt]: new Date() }` (strictly greater than now). -/
def resetMatch (token : String) (now : Nat) (u : UserRec) : Bool :=
  u.resetToken = some token &&
    match u.tokenExpiration with
    | some t => decide (now < t)
    | none => false

/-- `ResetPassword` (controller lines 155-179): validate the new password,
look up a user whose `resetToken` equals the path token and whose
`tokenExpiration` is strictly in the future, fail with 400 if none, else
update password and null both token fields in one update.  Returns the
response together with the resulting store. -/
def ResetPassword (now : Nat) (token : String) (newPassword : Field)
    (s : Store) : ResetResult × Store :=
  if !validatePasswordF newPassword then
    (.err 400 weakPasswordMsg, s)
  else
    match s.find? (resetMatch token now) with
    | none => (.err 400 "Invalid or expired reset token.", s)
    | some u =>
        (.ok 200 "Password reset successfully",
         updateUser s u.userid (fun v =>
           { v with password := newPassword.getD ""
                    resetToken := none
                    tokenExpiration := none }))

/-- The attributes of a user record as an ordered association list, the
shape the ORM hands to response serialization. -/
def userAttributes (u : UserRec) : List (String × String) :=
  [("userid", toString u.userid),
   ("email", u.email),
   ("password", u.password),
   ("role", u.role),
   ("phoneNumber", u.phoneNumber),
   ("resetToken", u.resetToken.getD "null"),
   ("tokenExpiration", (u.tokenExpiration.map toString).getD "null")]

/-- `attributes: { exclude: excluded }` on a query: drop the excluded
attribute keys from the projection. -/
def excludeAttrs (attrs : List (String × String)) (excluded : List String) :
    List (String × String) :=
  attrs.filter (fun p => !excluded.contains p.1)

/-- The projection returned by `findOne({..., attributes: { exclude:
['password'] }})` (controller lines 45-48 and 82-85). -/
def sanitizedUserOf (u : UserRec) : List (String × String) :=
  excludeAttrs (userAttributes u) ["password"]

/-- `const allowedRoles = ['admin', 'user']` (controller line 13). -/
def allowedRoles : List String := ["admin", "user"]

/-- `allowedRoles.includes(role) ? role : 'user'` (controller line 36);
an absent role never passes the `includes` test. -/
def roleOf (ro : Field) : String :=
  match ro with
  | some r => if allowedRoles.contains r then r else "user"
  | none => "user"

/-- The registration request body (`req.body` fields used by
`PassportRegister`); each field may be absent. -/
structure RegisterInput where
  email : Field
  password : Field
  role : Field
  phoneNumber : Field
deriving Repr, DecidableEq

/-- The `validationChecks` array of `PassportRegister` (lines 20-25), in
declaration order: required fields, email, password, phone. -/
def registerChecks (i : RegisterInput) : List (Bool × String) :=
  let requiredFieldErrors := validateRequiredFields
    [("email", i.email), ("password", i.password), ("phoneNumber", i.phoneNumber)]
  [(requiredFieldErrors.isNone, requiredFieldErrors.getD ""),
   (validateEmailF i.email, "Invalid email format."),
   (validatePasswordF i.password, weakPasswordMsg),
   (validatePhoneNumberF i.phoneNumber,
    "Phone number must be in the format +91 followed by 10 digits.")]

/-- Outcome of `PassportRegister`: a thrown `ApiError`, or the 201
response.  On success `sessionUserId` records the identifier bound by
`setSessionForUser(req, user.userid)` and `data` is the re-fetched
projection (`null` if the re-fetch found nothing). -/
inductive RegResult where
  | err (status : Nat) (message : String)
  | ok (status : Nat) (sessionUserId : Nat)
       (data : Option (List (String × String))) (message : String)
deriving Repr, DecidableEq

/-- `PassportRegister` (controller lines 16-53): run the validation checks
in order, fail 409 when the email already exists, create the user (role
defaulted to `'user'` unless in `allowedRoles`), bind the session to the
new identifier, re-fetch the record excluding the password and answer 201.
`nid` is the identifier the store assigns to the created record. -/
def PassportRegister (i : RegisterInput) (nid : Nat) (s : Store) :
    RegResult × Store :=
  match firstError (registerChecks i) with
  | some msg => (.err 400 msg, s)
  | none =>
    match findByEmail s (i.email.getD "") with
    | some _ => (.err 409 "User already exists.", s)
    | none =>
        let userRole := roleOf i.role
        let newUser : UserRec :=
          { userid := nid
            email := i.email.getD ""
            password := i.password.getD ""
            role := userRole
            phoneNumber := i.phoneNumber.getD ""
            resetToken := none
            tokenExpiration := none }
        let s1 := s ++ [newUser]
        let createdUser := (findByEmail s1 (i.email.getD "")).map sanitizedUserOf
        (.ok 201 nid createdUser "User registered successfully.", s1)

/-- The login request body. -/
structure LoginInput where
  email : Field
  password : Field
deriving Repr, DecidableEq

/-- The `validationChecks` array of `PassportLogIn` (lines 60-64). -/
def loginChecks (i : LoginInput) : List (Bool × String) :=
  let requiredFieldErrors := validateRequiredFields
    [("email", i.email), ("password", i.password)]
  [(requiredFieldErrors.isNone,
    requiredFieldErrors.getD "Email and password are required."),
   (validateEmailF i.email, "Invalid email format."),
   (validatePasswordF i.password, weakPasswordMsg)]

/-- Modelled from the spec: the outcome of the missing passport `local`
strategy (`db/passport.js`), per section 6 — `verify(email, password) ->
{Error} | {Invalid, reason} | {Success, user}`.  The `invalid` reason is
the `info` argument of the `passport.authenticate` callback. -/
inductive VerifyResult where
  | error (e : String)
  | invalid (info : Option String)
  | success (u : UserRec)
deriving Repr, DecidableEq

/-- A verifier: the external authentication capability as a function of
the request body. -/
abbrev Verifier := LoginInput → VerifyResult

/-- A `Set-Cookie` produced by `res.cookie(name, value, options)`. -/
structure SetCookie where
  name : String
  value : String
  httpOnly : Bool
  sameSite : Option String
  secure : Bool
deriving Repr, DecidableEq

/-- Outcome of `PassportLogIn`.  `sysError` is `next(err)` /
`next(error)`; `unauthorized` is the 401 response; `notFound` the thrown
404; on success the response carries the cookie, the session-bound
identifier and the sanitized user body. -/
inductive LoginResult where
  | validationError (status : Nat) (message : String)
  | sysError (e : String)
  | unauthorized (status : Nat) (message : String)
  | notFound (status : Nat) (message : String)
  | success (status : Nat) (cookie : SetCookie) (sessionUserId : Nat)
            (userBody : List (String × String)) (message : String)
deriving Repr, DecidableEq

/-- `PassportLogIn` (controller lines 56-114): run the validation checks,
delegate to the authentication capability, answer 401 with
`info || "Invalid login credentials."` when it reports invalid
credentials, and on success bind the session to `user.userid`, re-fetch
the password-free projection (404 if gone) and answer 200 with the
`session_cookie` cookie (`httpOnly`, `sameSite: 'strict'`) whose value is
`req.session.userId = user.userid`. -/
def PassportLogIn (verify : Verifier) (s : Store) (i : LoginInput) :
    LoginResult :=
  match firstError (loginChecks i) with
  | some msg => .validationError 400 msg
  | none =>
    match verify i with
    | .error e => .sysError e
    | .invalid info => .unauthorized 401 (info.getD "Invalid login credentials.")
    | .success u =>
        match findByEmail s u.email with
        | none => .notFound 404 "User not found."
        | some su =>
            .success 200
              { name := "session_cookie"
                value := toString u.userid
                httpOnly := true
                sameSite := some "strict"
                secure := false }
              u.userid (sanitizedUserOf su) "Login successful"

/-- Outcome of `req.session.destroy`: the error passed to its callback,
if any. -/
inductive DestroyOutcome where
  | ok
  | failed (e : String)
deriving Repr, DecidableEq

/-- The logout response: on success the named cookie is cleared with the
given options. -/
structure LogoutResponse where
  status : Nat
  clearedCookie : Option (String × Bool × Bool)
  message : String
deriving Repr, DecidableEq

/-- `PassportLogOut` (controller lines 118-133): destroy the session; on
error answer 500, otherwise clear the `connect.sid` cookie with
`httpOnly: true, secure: true` and answer 200.  The response does not
depend on whether a session existed, only on the destruction outcome. -/
def PassportLogOut (d : DestroyOutcome) : LogoutResponse :=
  match d with
  | .failed _ => { status := 500, clearedCookie := none, message := "Failed to log out" }
  | .ok =>
      { status := 200
        clearedCookie := some ("connect.sid", true, true)
        message := "User logged out successfully" }

/-- The lowercase hex digit of a value below 16, as produced by
`Buffer.toString("hex")`. -/
def hexDigit (n : Nat) : Char :=
  if n < 10 then Char.ofNat (48 + n) else Char.ofNat (87 + n)

/-- Hex encoding of one byte: two lowercase hex digits. -/
def byteToHex (b : Nat) : String :=
  String.mk [hexDigit (b / 16), hexDigit (b % 16)]

/-- `Buffer.toString("hex")` over a byte sequence. -/
def bytesToHex : List Nat → String
  | [] => ""
  | b :: bs => byteToHex b ++ bytesToHex bs

/-- Outcome of `ForgotPassword`. -/
inductive ForgotResult where
  | err (status : Nat) (message : String)
  | ok (status : Nat) (message : String)
deriving Repr, DecidableEq

/-- `ForgotPassword` (controller lines 136-153): validate the email
format, fail 404 when no user matches, generate the reset token as the
hex encoding of `crypto.randomBytes(3)` (passed in as `randBytes`), set
`tokenExpiration = Date.now() + 3600000`, persist both on the user, then
dispatch the reset e-mail (`emailSend` is its outcome: a rejection
propagates through `asyncHandler` after the update has been persisted)
and answer 200. -/
def ForgotPassword (now : Nat) (randBytes : List Nat)
    (emailSend : Option String) (email : Field) (s : Store) :
    ForgotResult × Store :=
  if !validateEmailF email then (.err 400 "Invalid email format.", s)
  else
    match findByEmail s (email.getD "") with
    | none => (.err 404 "User with this email does not exist.", s)
    | some u =>
        let resetToken := bytesToHex randBytes
        let tokenExpiration := now + 3600000
        let s1 := updateUser s u.userid (fun v =>
          { v with resetToken := some resetToken
                   tokenExpiration := some tokenExpiration })
        match emailSend with
        | some e => (.err 500 e, s1)
        | none => (.ok 200 "Password reset email sent successfully.", s1)

/-- The number of records carrying a given email, used to state the
uniqueness part of the registration claims. -/
def countEmail (s : Store) (e : String) : Nat :=
  (s.filter (fun u => u.email = e)).length

/-- A possible behavior of the external `local` strategy that
distinguishes an unknown email from a wrong password in its `info`
message — the kind of credential-verification outcome the controller
forwards verbatim. -/
def leakyVerifier (s : Store) : Verifier := fun i =>
  match i.email with
  | none => .invalid (some "User does not exist.")
  | some e =>
      match findByEmail s e with
      | none => .invalid (some "User does not exist.")
      | some u =>
          if some u.password = i.password then .success u
          else .invalid (some "Incorrect password.")

/-- A lowercase hexadecimal digit. -/
def isHexChar (c : Char) : Bool :=
  c.isDigit || ('a' ≤ c && c ≤ 'f')

/-! ## General lemmas about the embedded operations -/

/-- The keys of the password-free projection, for every record. -/
theorem sanitizedUserOf_keys (u : UserRec) :
    (sanitizedUserOf u).map Prod.fst =
      ["userid", "email", "role", "phoneNumber", "resetToken", "tokenExpiration"] :=
  rfl

/-- A successful `PassportRegister` run hands out a body that is the
password-free projection of some record. -/
theorem register_ok_body (i : RegisterInput) (nid : Nat) (s : Store)
    (st sid : Nat) (d : Option (List (String × String))) (m : String)
    (s1 : Store) (body : List (String × String))
    (hrun : PassportRegister i nid s = (.ok st sid d m, s1))
    (hd : d = some body) : ∃ u, body = sanitizedUserOf u := by
  unfold PassportRegister at hrun
  split at hrun
  · simp at hrun
  · split at hrun
    · simp at hrun
    · rw [Prod.mk.injEq] at hrun
      obtain ⟨h1, -⟩ := hrun
      rw [RegResult.ok.injEq] at h1
      obtain ⟨-, -, h1, -⟩ := h1
      rw [← h1, Option.map_eq_some'] at hd
      obtain ⟨u, -, hu⟩ := hd
      exact ⟨u, hu.symm⟩

/-- A successful `PassportLogIn` run hands out the password-free
projection of the re-fetched record, a cookie with the contract of the
source, and the verified user's identifier bound to the session. -/
theorem login_success_shape (verify : Verifier) (s : Store) (i : LoginInput)
    (st : Nat) (ck : SetCookie) (sid : Nat) (body : List (String × String))
    (m : String)
    (hrun : PassportLogIn verify s i = .success st ck sid body m) :
    ∃ u su, verify i = .success u ∧ findByEmail s u.email = some su ∧
      ck = { name := "session_cookie", value := toString u.userid,
             httpOnly := true, sameSite := some "strict", secure := false } ∧
      sid = u.userid ∧ body = sanitizedUserOf su := by
  unfold PassportLogIn at hrun
  split at hrun
  · simp at hrun
  · split at hrun
    · simp at hrun
    · simp at hrun
    · rename_i u hv
      split at hrun
      · simp at hrun
      · rename_i su hsu
        rw [LoginResult.success.injEq] at hrun
        obtain ⟨-, hck, hsid, hbody, -⟩ := hrun
        exact ⟨u, su, hv, hsu, hck.symm, hsid.symm, hbody.symm⟩

/-- `allowedRoles.contains` unfolded over the two literal roles. -/
theorem contains_allowedRoles (r : String) :
    allowedRoles.contains r = (r == "admin" || r == "user") := by
  cases h1 : r == "admin" <;> cases h2 : r == "user" <;>
    simp [allowedRoles, List.contains, List.elem, h1, h2]

/-- The computed role is always one of the two allowed roles. -/
theorem roleOf_mem (ro : Field) : roleOf ro = "admin" ∨ roleOf ro = "user" := by
  cases ro with
  | none => exact Or.inr rfl
  | some r =>
      simp only [roleOf]
      rw [contains_allowedRoles]
      cases h1 : r == "admin" with
      | true => rw [beq_iff_eq.mp h1]; decide
      | false =>
          cases h2 : r == "user" with
          | true => rw [beq_iff_eq.mp h2]; decide
          | false => simp [h1, h2]

/-- A role outside the allowed set (or absent) is defaulted to `'user'`. -/
theorem roleOf_default (ro : Field)
    (h : ∀ r, ro = some r → r ≠ "admin" ∧ r ≠ "user") : roleOf ro = "user" := by
  cases ro with
  | none => rfl
  | some r =>
      obtain ⟨h1, h2⟩ := h r rfl
      simp only [roleOf]
      rw [contains_allowedRoles]
      simp [beq_eq_false_iff_ne.mpr h1, beq_eq_false_iff_ne.mpr h2]

/-- An allowed requested role is kept. -/
theorem roleOf_allowed (r : String) (h : r = "admin" ∨ r = "user") :
    roleOf (some r) = r := by
  simp only [roleOf]
  rw [contains_allowedRoles]
  rcases h with h | h <;> subst h <;> decide

/-! ## Claims -/

/-- C9: `PassportLogOut` answers 500 when session destruction errors, and
otherwise clears the session cookie with `httpOnly = true` and
`secure = true` and answers 200, independently of any session state. -/
theorem logout_contract (e : String) :
    PassportLogOut (.failed e) =
      { status := 500, clearedCookie := none, message := "Failed to log out" } ∧
    PassportLogOut .ok =
      { status := 200, clearedCookie := some ("connect.sid", true, true),
        message := "User logged out successfully" } :=
  ⟨rfl, rfl⟩

/-- Witness for `logout_contract` at a concrete destruction error. -/
theorem logout_contract_witness :
    PassportLogOut (.failed "boom") =
      { status := 500, clearedCookie := none, message := "Failed to log out" } ∧
    PassportLogOut .ok =
      { status := 200, clearedCookie := some ("connect.sid", true, true),
        message := "User logged out successfully" } :=
  logout_contract "boom"

/-- C4: the password attribute appears in no success body: every 201 body
of `PassportRegister` and every 200 body of `PassportLogIn` carries a user
projection whose keys exclude `password`. -/
theorem success_bodies_exclude_password :
    (∀ (i : RegisterInput) (nid : Nat) (s : Store) (st sid : Nat)
        (d : Option (List (String × String))) (m : String) (s1 : Store)
        (body : List (String × String)),
        PassportRegister i nid s = (.ok st sid d m, s1) → d = some body →
        "password" ∉ body.map Prod.fst) ∧
    (∀ (verify : Verifier) (s : Store) (i : LoginInput) (st : Nat)
        (ck : SetCookie) (sid : Nat) (body : List (String × String))
        (m : String),
        PassportLogIn verify s i = .success st ck sid body m →
        "password" ∉ body.map Prod.fst) := by
  constructor
  · intro i nid s st sid d m s1 body hrun hd
    obtain ⟨u, hu⟩ := register_ok_body i nid s st sid d m s1 body hrun hd
    rw [hu, sanitizedUserOf_keys]
    decide
  · intro verify s i st ck sid body m hrun
    obtain ⟨-, su, -, -, -, -, hbody⟩ := login_success_shape verify s i st ck sid body m hrun
    rw [hbody, sanitizedUserOf_keys]
    decide

/-- Witness for `success_bodies_exclude_password` at a concrete
registration and a concrete login. -/
theorem success_bodies_exclude_password_witness :
    "password" ∉
      ([("userid", "7"), ("email", "a@b.com"), ("role", "user"),
        ("phoneNumber", "+919876543210"), ("resetToken", "null"),
        ("tokenExpiration", "null")] : List (String × String)).map Prod.fst :=
  success_bodies_exclude_password.1
    ⟨some "a@b.com", some "Abcd1!", none, some "+919876543210"⟩ 7 [] 201 7
    (some [("userid", "7"), ("email", "a@b.com"), ("role", "user"),
      ("phoneNumber", "+919876543210"), ("resetToken", "null"),
      ("tokenExpiration", "null")])
    "User registered successfully."
    [⟨7, "a@b.com", "Abcd1!", "user", "+919876543210", none, none⟩]
    _ (by decide) rfl

/-- C8: every record created by `PassportRegister` has a role in
`{admin, user}`; when the requested role is absent or outside
`allowedRoles` the created role is `'user'`, and an allowed requested
role is kept. -/
theorem register_role_default (i : RegisterInput) (nid : Nat) (s s1 : Store)
    (st sid : Nat) (d : Option (List (String × String))) (m : String)
    (hrun : PassportRegister i nid s = (.ok st sid d m, s1)) :
    ∃ u : UserRec, s1 = s ++ [u] ∧
      (u.role = "admin" ∨ u.role = "user") ∧
      ((∀ r, i.role = some r → r ≠ "admin" ∧ r ≠ "user") → u.role = "user") ∧
      (∀ r, i.role = some r → (r = "admin" ∨ r = "user") → u.role = r) := by
  unfold PassportRegister at hrun
  split at hrun
  · simp at hrun
  · split at hrun
    · simp at hrun
    · rw [Prod.mk.injEq] at hrun
      obtain ⟨-, h2⟩ := hrun
      refine ⟨_, h2.symm, ?_, ?_, ?_⟩
      · exact roleOf_mem i.role
      · intro hnone
        exact roleOf_default i.role hnone
      · intro r hro hr
        rw [hro]
        exact roleOf_allowed r hr

/-- Witness for `register_role_default`: registering with an
unrecognized role `'root'` creates the record with role `'user'`. -/
theorem register_role_default_witness :
    ∃ u : UserRec,
      ([⟨7, "a@b.com", "Abcd1!", "user", "+919876543210", none, none⟩] : Store) =
        [] ++ [u] ∧
      (u.role = "admin" ∨ u.role = "user") ∧
      ((∀ r, (some "root" : Field) = some r → r ≠ "admin" ∧ r ≠ "user") →
        u.role = "user") ∧
      (∀ r, (some "root" : Field) = some r → (r = "admin" ∨ r = "user") →
        u.role = r) :=
  register_role_default
    ⟨some "a@b.com", some "Abcd1!", some "root", some "+919876543210"⟩ 7 []
    [⟨7, "a@b.com", "Abcd1!", "user", "+919876543210", none, none⟩] 201 7
    (some [("userid", "7"), ("email", "a@b.com"), ("role", "user"),
      ("phoneNumber", "+919876543210"), ("resetToken", "null"),
      ("tokenExpiration", "null")])
    "User registered successfully." (by decide)

/-- C6: every successful login sets the `session_cookie` cookie with
`httpOnly = true` and `sameSite = 'strict'`, its value is the verified
user's raw `userid`, and the same identifier is bound into the
server-side session. -/
theorem login_session_cookie (verify : Verifier) (s : Store) (i : LoginInput)
    (st : Nat) (ck : SetCookie) (sid : Nat) (body : List (String × String))
    (m : String)
    (hrun : PassportLogIn verify s i = .success st ck sid body m) :
    ∃ u : UserRec, verify i = .success u ∧
      ck.name = "session_cookie" ∧ ck.httpOnly = true ∧
      ck.sameSite = some "strict" ∧ ck.value = toString u.userid ∧
      sid = u.userid ∧ ck.value = toString sid := by
  obtain ⟨u, su, hv, hsu, hck, hsid, -⟩ :=
    login_success_shape verify s i st ck sid body m hrun
  exact ⟨u, hv, by rw [hck], by rw [hck], by rw [hck], by rw [hck],
    hsid, by rw [hck, hsid]⟩

/-- Witness for `login_session_cookie`: a concrete successful login
whose cookie is `session_cookie = "7"` with the contract flags. -/
theorem login_session_cookie_witness :
    ∃ u : UserRec,
      (fun _ => VerifyResult.success
        ⟨7, "a@b.com", "Abcd1!", "user", "+919876543210", none, none⟩ :
          Verifier) ⟨some "a@b.com", some "Abcd1!"⟩ = .success u ∧
      (⟨"session_cookie", "7", true, some "strict", false⟩ : SetCookie).name =
        "session_cookie" ∧
      (⟨"session_cookie", "7", true, some "strict", false⟩ : SetCookie).httpOnly =
        true ∧
      (⟨"session_cookie", "7", true, some "strict", false⟩ : SetCookie).sameSite =
        some "strict" ∧
      (⟨"session_cookie", "7", true, some "strict", false⟩ : SetCookie).value =
        toString u.userid ∧
      7 = u.userid ∧
      (⟨"session_cookie", "7", true, some "strict", false⟩ : SetCookie).value =
        toString 7 :=
  login_session_cookie
    (fun _ => VerifyResult.success
      ⟨7, "a@b.com", "Abcd1!", "user", "+919876543210", none, none⟩)
    [⟨7, "a@b.com", "Abcd1!", "user", "+919876543210", none, none⟩]
    ⟨some "a@b.com", some "Abcd1!"⟩ 200
    ⟨"session_cookie", "7", true, some "strict", false⟩ 7
    [("userid", "7"), ("email", "a@b.com"), ("role", "user"),
     ("phoneNumber", "+919876543210"), ("resetToken", "null"),
     ("tokenExpiration", "null")]
    "Login successful" (by decide)

/-- If the login validation loop throws nothing, the submitted password
passed the strength check. -/
theorem loginChecks_none_password (i : LoginInput)
    (h : firstError (loginChecks i) = none) :
    validatePasswordF i.password = true := by
  cases hr : validateRequiredFields [("email", i.email), ("password", i.password)] <;>
    cases he : validateEmailF i.email <;>
    cases hp : validatePasswordF i.password <;>
    simp_all [loginChecks, firstError]

/-- C10: a login whose submitted password fails the strength rule ends in
a 400 validation outcome, and the run is independent of the
authentication capability and the store — credential verification is
never reached. -/
theorem login_password_gate (v v2 : Verifier) (s s2 : Store) (i : LoginInput)
    (hweak : validatePasswordF i.password = false) :
    (∃ msg, PassportLogIn v s i = .validationError 400 msg) ∧
    PassportLogIn v s i = PassportLogIn v2 s2 i := by
  obtain ⟨msg, hmsg⟩ : ∃ msg, firstError (loginChecks i) = some msg := by
    cases h : firstError (loginChecks i) with
    | none =>
        rw [loginChecks_none_password i h] at hweak
        cases hweak
    | some msg => exact ⟨msg, rfl⟩
  constructor
  · exact ⟨msg, by simp [PassportLogIn, hmsg]⟩
  · simp [PassportLogIn, hmsg]

/-- Witness for `login_password_gate`: a weak submitted password yields a
400 run that two very different verifiers cannot tell apart. -/
theorem login_password_gate_witness :
    validatePasswordF (some "weak") = false ∧
    ((∃ msg, PassportLogIn (fun _ => .error "boom")
        [⟨7, "a@b.com", "weak", "user", "+919876543210", none, none⟩]
        ⟨some "a@b.com", some "weak"⟩ = .validationError 400 msg) ∧
      PassportLogIn (fun _ => .error "boom")
        [⟨7, "a@b.com", "weak", "user", "+919876543210", none, none⟩]
        ⟨some "a@b.com", some "weak"⟩ =
      PassportLogIn (fun _ => .invalid none) [] ⟨some "a@b.com", some "weak"⟩) :=
  ⟨by decide,
   login_password_gate (fun _ => .error "boom") (fun _ => .invalid none)
     [⟨7, "a@b.com", "weak", "user", "+919876543210", none, none⟩] []
     ⟨some "a@b.com", some "weak"⟩ (by decide)⟩

/-- The required-fields check of the registration body passes exactly
when all three fields are present and nonempty. -/
theorem requiredFields3_none_iff (a b c : Field) :
    validateRequiredFields [("email", a), ("password", b), ("phoneNumber", c)] = none ↔
      fieldMissing a = false ∧ fieldMissing b = false ∧ fieldMissing c = false := by
  cases ha : fieldMissing a <;> cases hb : fieldMissing b <;>
    cases hc : fieldMissing c <;>
    simp [validateRequiredFields, List.filter, ha, hb, hc]

/-- The registration validation loop throws nothing exactly when every
check passes. -/
theorem registerChecks_none_iff (i : RegisterInput) :
    firstError (registerChecks i) = none ↔
      validateRequiredFields
        [("email", i.email), ("password", i.password),
         ("phoneNumber", i.phoneNumber)] = none ∧
      validateEmailF i.email = true ∧ validatePasswordF i.password = true ∧
      validatePhoneNumberF i.phoneNumber = true := by
  cases hr : validateRequiredFields
      [("email", i.email), ("password", i.password),
       ("phoneNumber", i.phoneNumber)] <;>
    cases he : validateEmailF i.email <;>
    cases hp : validatePasswordF i.password <;>
    cases hn : validatePhoneNumberF i.phoneNumber <;>
    simp [registerChecks, firstError, hr, he, hp, hn]

/-- C2: a registration input missing a required field or failing any
format check ends in a 400 whose message is the first failing check's, in
declaration order, and the store is neither consulted (the outcome is the
same for every store) nor extended. -/
theorem register_validation_guard (i : RegisterInput) (s s2 : Store)
    (nid nid2 : Nat)
    (hfail : fieldMissing i.email = true ∨ fieldMissing i.password = true ∨
      fieldMissing i.phoneNumber = true ∨ validateEmailF i.email = false ∨
      validatePasswordF i.password = false ∨
      validatePhoneNumberF i.phoneNumber = false) :
    ∃ msg, firstError (registerChecks i) = some msg ∧
      PassportRegister i nid s = (.err 400 msg, s) ∧
      PassportRegister i nid2 s2 = (.err 400 msg, s2) := by
  obtain ⟨msg, hmsg⟩ : ∃ msg, firstError (registerChecks i) = some msg := by
    cases h : firstError (registerChecks i) with
    | some m => exact ⟨m, rfl⟩
    | none =>
        obtain ⟨h1, h2, h3, h4⟩ := (registerChecks_none_iff i).mp h
        obtain ⟨m1, m2, m3⟩ := (requiredFields3_none_iff _ _ _).mp h1
        rcases hfail with hf | hf | hf | hf | hf | hf <;> simp_all
  exact ⟨msg, hmsg, by simp [PassportRegister, hmsg],
    by simp [PassportRegister, hmsg]⟩

/-- Witness for `register_validation_guard`: a body with no email is
rejected with the required-fields message on two different stores. -/
theorem register_validation_guard_witness :
    fieldMissing (none : Field) = true ∧
    (∃ msg,
      firstError (registerChecks
        ⟨none, some "Abcd1!", none, some "+919876543210"⟩) = some msg ∧
      PassportRegister ⟨none, some "Abcd1!", none, some "+919876543210"⟩ 1 [] =
        (.err 400 msg, []) ∧
      PassportRegister ⟨none, some "Abcd1!", none, some "+919876543210"⟩ 2
        [⟨7, "c@d.com", "Abcd1!", "user", "+919876543210", none, none⟩] =
        (.err 400 msg,
         [⟨7, "c@d.com", "Abcd1!", "user", "+919876543210", none, none⟩])) :=
  ⟨rfl,
   register_validation_guard
     ⟨none, some "Abcd1!", none, some "+919876543210"⟩ []
     [⟨7, "c@d.com", "Abcd1!", "user", "+919876543210", none, none⟩] 1 2
     (Or.inl rfl)⟩

/-- Appending a fresh record with the sought email makes it the record
`findOne` returns. -/
theorem findByEmail_append_singleton (s : Store) (u : UserRec) (e : String)
    (h : findByEmail s e = none) (hu : u.email = e) :
    findByEmail (s ++ [u]) e = some u := by
  unfold findByEmail at h ⊢
  rw [List.find?_append, h]
  simp [hu]

/-- `findOne` finding nothing means no record carries the email. -/
theorem countEmail_eq_zero_of_find_none (s : Store) (e : String)
    (h : findByEmail s e = none) : countEmail s e = 0 := by
  unfold findByEmail at h
  rw [List.find?_eq_none] at h
  simp only [countEmail, List.length_eq_zero, List.filter_eq_nil_iff]
  intro u hu
  exact h u hu

/-- `countEmail` distributes over append. -/
theorem countEmail_append (s t : Store) (e : String) :
    countEmail (s ++ t) e = countEmail s e + countEmail t e := by
  simp [countEmail, List.filter_append]

/-- Counterexample to C3 as stated: an existing email alone does not
force the 409 outcome — with a weak password the run ends in the 400
validation error instead. -/
theorem register_conflict_counterexample :
    ¬ (∀ (i : RegisterInput) (nid : Nat) (s : Store),
        (∃ u ∈ s, some u.email = i.email) →
        (PassportRegister i nid s).1 = RegResult.err 409 "User already exists.") := by
  intro h
  have hc := h ⟨some "a@b.com", some "x", none, some "+919876543210"⟩ 1
      [⟨7, "a@b.com", "Abcd1!", "user", "+919876543210", none, none⟩]
      ⟨⟨7, "a@b.com", "Abcd1!", "user", "+919876543210", none, none⟩,
        by decide, by decide⟩
  exact absurd hc (by decide)

/-- C3 (amended): for a registration input that passes validation, an
existing record with the same email forces the 409 outcome and an
untouched store; on a fresh email the run succeeds, afterwards exactly
one record carries the email, and re-registering the same input answers
409 and leaves the store unchanged. -/
theorem register_conflict_amended (i : RegisterInput) (nid nid2 : Nat)
    (s s1 : Store) (e : String) (res1 : RegResult)
    (hemail : i.email = some e)
    (hvalid : firstError (registerChecks i) = none)
    (hrun : PassportRegister i nid s = (res1, s1)) :
    (∀ u, findByEmail s e = some u →
       res1 = .err 409 "User already exists." ∧ s1 = s) ∧
    (findByEmail s e = none →
       (∃ d, res1 = .ok 201 nid d "User registered successfully.") ∧
       countEmail s1 e = 1 ∧
       PassportRegister i nid2 s1 = (.err 409 "User already exists.", s1)) := by
  simp only [PassportRegister, hvalid, hemail, Option.getD_some] at hrun
  constructor
  · intro u hu
    rw [hu] at hrun
    rw [Prod.mk.injEq] at hrun
    exact ⟨hrun.1.symm, hrun.2.symm⟩
  · intro hnone
    rw [hnone] at hrun
    rw [Prod.mk.injEq] at hrun
    obtain ⟨hres, hs1⟩ := hrun
    have hmail : (⟨nid, e, i.password.getD "", roleOf i.role,
        i.phoneNumber.getD "", none, none⟩ : UserRec).email = e := rfl
    refine ⟨⟨_, hres.symm⟩, ?_, ?_⟩
    · rw [← hs1, countEmail_append,
        countEmail_eq_zero_of_find_none s e hnone]
      simp [countEmail, List.filter]
    · have hfind := findByEmail_append_singleton s _ e hnone hmail
      simp only [PassportRegister, hvalid, hemail, Option.getD_some, ← hs1,
        hfind]

/-- Witness for `register_conflict_amended`: registering `a@b.com` on the
empty store succeeds, leaves one record, and a second identical attempt
answers 409. -/
theorem register_conflict_amended_witness :
    firstError (registerChecks
      ⟨some "a@b.com", some "Abcd1!", none, some "+919876543210"⟩) = none ∧
    ((∀ u, findByEmail [] "a@b.com" = some u →
        RegResult.ok 201 1
          (some [("userid", "1"), ("email", "a@b.com"), ("role", "user"),
            ("phoneNumber", "+919876543210"), ("resetToken", "null"),
            ("tokenExpiration", "null")]) "User registered successfully." =
          .err 409 "User already exists." ∧
        ([⟨1, "a@b.com", "Abcd1!", "user", "+919876543210", none, none⟩] : Store) = []) ∧
      (findByEmail [] "a@b.com" = none →
        (∃ d, RegResult.ok 201 1
          (some [("userid", "1"), ("email", "a@b.com"), ("role", "user"),
            ("phoneNumber", "+919876543210"), ("resetToken", "null"),
            ("tokenExpiration", "null")]) "User registered successfully." =
            .ok 201 1 d "User registered successfully.") ∧
        countEmail [⟨1, "a@b.com", "Abcd1!", "user", "+919876543210", none, none⟩] "a@b.com" = 1 ∧
        PassportRegister ⟨some "a@b.com", some "Abcd1!", none, some "+919876543210"⟩ 2
          [⟨1, "a@b.com", "Abcd1!", "user", "+919876543210", none, none⟩] =
          (.err 409 "User already exists.",
           [⟨1, "a@b.com", "Abcd1!", "user", "+919876543210", none, none⟩]))) :=
  ⟨by decide,
   register_conflict_amended
     ⟨some "a@b.com", some "Abcd1!", none, some "+919876543210"⟩ 1 2 []
     [⟨1, "a@b.com", "Abcd1!", "user", "+919876543210", none, none⟩]
     "a@b.com" _ rfl (by decide) (by decide)⟩

/-- Counterexample to C5 as stated: the controller forwards the
verification capability's `info` verbatim, so a strategy whose reasons
differ between "unknown email" and "wrong password" surfaces different
401 messages for the two failing runs. -/
theorem login_message_counterexample :
    ¬ (∀ (verify : Verifier) (s : Store) (i1 i2 : LoginInput) (m1 m2 : String),
        PassportLogIn verify s i1 = .unauthorized 401 m1 →
        PassportLogIn verify s i2 = .unauthorized 401 m2 → m1 = m2) := by
  intro h
  have hc := h
    (leakyVerifier [⟨7, "a@b.com", "Abcd1!", "user", "+919876543210", none, none⟩])
    [⟨7, "a@b.com", "Abcd1!", "user", "+919876543210", none, none⟩]
    ⟨some "a@b.com", some "Wrong1!"⟩ ⟨some "c@d.com", some "Abcd1!"⟩
    "Incorrect password." "User does not exist." (by decide) (by decide)
  exact absurd hc (by decide)

/-- C5 (amended): both failing runs answer 401; the surfaced message is
the verifier-supplied `info`, defaulting to `"Invalid login
credentials."` when there is none, so the two runs are indistinguishable
exactly when the authentication capability supplies the same `info` for
both — in particular always when it supplies none. -/
theorem login_unauthorized_amended (verify : Verifier) (s : Store)
    (i1 i2 : LoginInput) (info1 info2 : Option String)
    (h1v : firstError (loginChecks i1) = none)
    (h2v : firstError (loginChecks i2) = none)
    (h1 : verify i1 = .invalid info1) (h2 : verify i2 = .invalid info2) :
    PassportLogIn verify s i1 =
      .unauthorized 401 (info1.getD "Invalid login credentials.") ∧
    PassportLogIn verify s i2 =
      .unauthorized 401 (info2.getD "Invalid login credentials.") ∧
    (info1 = info2 →
      PassportLogIn verify s i1 = PassportLogIn verify s i2) := by
  refine ⟨by simp [PassportLogIn, h1v, h1], by simp [PassportLogIn, h2v, h2], ?_⟩
  intro he
  simp [PassportLogIn, h1v, h2v, h1, h2, he]

/-- Witness for `login_unauthorized_amended`: a strategy that supplies no
`info` yields the identical generic 401 message for a wrong-password run
and an unknown-email run. -/
theorem login_unauthorized_amended_witness :
    firstError (loginChecks ⟨some "a@b.com", some "Wrong1!"⟩) = none ∧
    firstError (loginChecks ⟨some "c@d.com", some "Abcd1!"⟩) = none ∧
    (PassportLogIn (fun _ => .invalid none) [] ⟨some "a@b.com", some "Wrong1!"⟩ =
        .unauthorized 401 ((none : Option String).getD "Invalid login credentials.") ∧
      PassportLogIn (fun _ => .invalid none) [] ⟨some "c@d.com", some "Abcd1!"⟩ =
        .unauthorized 401 ((none : Option String).getD "Invalid login credentials.") ∧
      ((none : Option String) = none →
        PassportLogIn (fun _ => .invalid none) [] ⟨some "a@b.com", some "Wrong1!"⟩ =
        PassportLogIn (fun _ => .invalid none) [] ⟨some "c@d.com", some "Abcd1!"⟩)) :=
  ⟨by decide, by decide,
   login_unauthorized_amended (fun _ => .invalid none) []
     ⟨some "a@b.com", some "Wrong1!"⟩ ⟨some "c@d.com", some "Abcd1!"⟩
     none none (by decide) (by decide) rfl rfl⟩

/-- Every value `hexDigit` takes on inputs below 16 is a hex digit. -/
theorem hexDigit_isHexChar : ∀ n < 16, isHexChar (hexDigit n) = true := by
  decide

/-- Hex encoding doubles the length. -/
theorem bytesToHex_length (bs : List Nat) :
    (bytesToHex bs).data.length = 2 * bs.length := by
  induction bs with
  | nil => rfl
  | cons b bs ih =>
      simp only [bytesToHex, String.data_append, List.length_append,
        List.length_cons, ih, byteToHex]
      simp [String.mk]
      ring

/-- Hex encoding of bytes produces hex digits only. -/
theorem bytesToHex_hex (bs : List Nat) (hb : ∀ b ∈ bs, b < 256) :
    ∀ c ∈ (bytesToHex bs).data, isHexChar c = true := by
  induction bs with
  | nil => intro c hc; cases hc
  | cons b bs ih =>
      intro c hc
      simp only [bytesToHex, String.data_append] at hc
      rcases List.mem_append.mp hc with hc | hc
      · have hb0 : b < 256 := hb b (List.mem_cons_self b bs)
        have h1 : b / 16 < 16 := Nat.div_lt_of_lt_mul (by omega)
        have h2 : b % 16 < 16 := Nat.mod_lt _ (by omega)
        simp only [byteToHex, String.mk, List.mem_cons, List.not_mem_nil,
          or_false] at hc
        rcases hc with hc | hc
        · exact hc ▸ hexDigit_isHexChar _ h1
        · exact hc ▸ hexDigit_isHexChar _ h2
      · exact ih (fun x hx => hb x (List.mem_cons_of_mem b hx)) c hc

/-- C7: on a valid-format email, `ForgotPassword` answers 404 and leaves
the store untouched when no record matches; otherwise it persists a
6-hex-character token and the expiration `now + 3600000` on the matched
record, and (when the mail dispatch succeeds) answers 200. -/
theorem forgot_password_contract (now : Nat) (bs : List Nat)
    (mail : Option String) (e : String) (s : Store)
    (hlen : bs.length = 3) (hb : ∀ b ∈ bs, b < 256)
    (hv : validateEmailF (some e) = true) :
    (findByEmail s e = none →
      ForgotPassword now bs mail (some e) s =
        (.err 404 "User with this email does not exist.", s)) ∧
    (∀ u, findByEmail s e = some u →
      (bytesToHex bs).data.length = 6 ∧
      (∀ c ∈ (bytesToHex bs).data, isHexChar c = true) ∧
      (∃ v ∈ (ForgotPassword now bs mail (some e) s).2,
        v.userid = u.userid ∧ v.resetToken = some (bytesToHex bs) ∧
        v.tokenExpiration = some (now + 3600000)) ∧
      (mail = none →
        (ForgotPassword now bs mail (some e) s).1 =
          .ok 200 "Password reset email sent successfully.")) := by
  constructor
  · intro h
    cases mail <;> simp [ForgotPassword, hv, h]
  · intro u hu
    have hmem : u ∈ s := List.mem_of_find?_eq_some hu
    refine ⟨by rw [bytesToHex_length, hlen], bytesToHex_hex bs hb, ?_, ?_⟩
    · refine ⟨{ u with resetToken := some (bytesToHex bs)
                       tokenExpiration := some (now + 3600000) }, ?_, rfl, rfl, rfl⟩
      have : (ForgotPassword now bs mail (some e) s).2 =
          updateUser s u.userid (fun v =>
            { v with resetToken := some (bytesToHex bs)
                     tokenExpiration := some (now + 3600000) }) := by
        cases mail <;> simp [ForgotPassword, hv, hu]
      rw [this]
      have := List.mem_map_of_mem
        (fun w => if w.userid = u.userid then
          { w with resetToken := some (bytesToHex bs)
                   tokenExpiration := some (now + 3600000) } else w) hmem
      simpa [updateUser] using this
    · intro hm
      subst hm
      simp [ForgotPassword, hv, hu]

/-- Witness for `forgot_password_contract`: a concrete store and the
bytes `[0, 255, 171]`, whose token is `"00ffab"`. -/
theorem forgot_password_contract_witness :
    ([0, 255, 171] : List Nat).length = 3 ∧
    (∀ b ∈ ([0, 255, 171] : List Nat), b < 256) ∧
    validateEmailF (some "a@b.com") = true ∧
    ((findByEmail [⟨7, "a@b.com", "Abcd1!", "user", "+919876543210", none, none⟩]
        "a@b.com" = none →
      ForgotPassword 1000 [0, 255, 171] none (some "a@b.com")
          [⟨7, "a@b.com", "Abcd1!", "user", "+919876543210", none, none⟩] =
        (.err 404 "User with this email does not exist.",
         [⟨7, "a@b.com", "Abcd1!", "user", "+919876543210", none, none⟩])) ∧
    (∀ u, findByEmail [⟨7, "a@b.com", "Abcd1!", "user", "+919876543210", none, none⟩]
        "a@b.com" = some u →
      (bytesToHex [0, 255, 171]).data.length = 6 ∧
      (∀ c ∈ (bytesToHex [0, 255, 171]).data, isHexChar c = true) ∧
      (∃ v ∈ (ForgotPassword 1000 [0, 255, 171] none (some "a@b.com")
          [⟨7, "a@b.com", "Abcd1!", "user", "+919876543210", none, none⟩]).2,
        v.userid = u.userid ∧ v.resetToken = some (bytesToHex [0, 255, 171]) ∧
        v.tokenExpiration = some (1000 + 3600000)) ∧
      ((none : Option String) = none →
        (ForgotPassword 1000 [0, 255, 171] none (some "a@b.com")
            [⟨7, "a@b.com", "Abcd1!", "user", "+919876543210", none, none⟩]).1 =
          .ok 200 "Password reset email sent successfully."))) :=
  ⟨rfl, by decide, by decide,
   forgot_password_contract 1000 [0, 255, 171] none "a@b.com"
     [⟨7, "a@b.com", "Abcd1!", "user", "+919876543210", none, none⟩]
     rfl (by decide) (by decide)⟩

/-- The reset lookup predicate unfolded: token equality together with a
strictly future expiration. -/
theorem resetMatch_iff (tk : String) (now : Nat) (u : UserRec) :
    resetMatch tk now u = true ↔
      u.resetToken = some tk ∧ ∃ e, u.tokenExpiration = some e ∧ now < e := by
  unfold resetMatch
  cases hx : u.tokenExpiration with
  | none => simp
  | some t => simp

/-- C1: reset tokens are single-use and expiry-bounded.  Under token
uniqueness across records, a successful `ResetPassword` run presupposes a
record holding the token with a strictly future expiration, updates that
record's password and nulls both token fields in the same update, erases
the token from the whole store, and makes any second run with the same
token fail with the 400 invalid-or-expired outcome while leaving the
store unchanged; a run on a store where the token's expirations have all
elapsed fails the same way and touches nothing. -/
theorem reset_token_single_use (now now2 : Nat) (tk : String) (pw pw2 : Field)
    (s s1 : Store) (res : ResetResult)
    (huniq : ∀ v ∈ s, ∀ w ∈ s, v.resetToken = some tk →
      w.resetToken = some tk → v.userid = w.userid)
    (hpw2 : validatePasswordF pw2 = true)
    (hrun : ResetPassword now tk pw s = (res, s1)) :
    ((∃ m, res = .ok 200 m) →
      validatePasswordF pw = true ∧
      (∃ u ∈ s, u.resetToken = some tk ∧
        ∃ e, u.tokenExpiration = some e ∧ now < e) ∧
      (∃ u ∈ s, u.resetToken = some tk ∧
        ∀ v ∈ s1, v.userid = u.userid →
          v.password = pw.getD "" ∧ v.resetToken = none ∧
          v.tokenExpiration = none) ∧
      (∀ v ∈ s1, v.resetToken ≠ some tk) ∧
      ResetPassword now2 tk pw2 s1 =
        (.err 400 "Invalid or expired reset token.", s1)) ∧
    ((∀ u ∈ s, u.resetToken = some tk →
        ∀ e, u.tokenExpiration = some e → e ≤ now) →
      validatePasswordF pw = true →
      res = .err 400 "Invalid or expired reset token." ∧ s1 = s) := by
  unfold ResetPassword at hrun
  cases hpw : validatePasswordF pw with
  | false =>
      rw [hpw] at hrun
      simp only [Bool.not_false, if_true, Prod.mk.injEq] at hrun
      obtain ⟨hres, -⟩ := hrun
      constructor
      · rintro ⟨m, hm⟩
        rw [← hres] at hm
        cases hm
      · intro _ hpwt
        exact absurd hpwt (by decide)
  | true =>
      rw [hpw] at hrun
      simp only [Bool.not_true, Bool.false_eq_true, if_false] at hrun
      cases hf : s.find? (resetMatch tk now) with
      | none =>
          rw [hf] at hrun
          rw [Prod.mk.injEq] at hrun
          obtain ⟨hres, hs1⟩ := hrun
          constructor
          · rintro ⟨m, hm⟩
            rw [← hres] at hm
            cases hm
          · intro _ _
            exact ⟨hres.symm, hs1.symm⟩
      | some u =>
          rw [hf] at hrun
          rw [Prod.mk.injEq] at hrun
          obtain ⟨hres, hs1⟩ := hrun
          have hmatch := List.find?_some hf
          have hmem : u ∈ s := List.mem_of_find?_eq_some hf
          obtain ⟨htk, e0, hexp, hlt⟩ := (resetMatch_iff tk now u).mp hmatch
          have hstep : ∀ v ∈ s1, ∃ w ∈ s,
              v = if w.userid = u.userid then
                { w with password := pw.getD ""
                         resetToken := none
                         tokenExpiration := none } else w := by
            intro v hv
            rw [← hs1] at hv
            obtain ⟨w, hw, hvw⟩ := List.mem_map.mp hv
            exact ⟨w, hw, hvw.symm⟩
          have hnotk : ∀ v ∈ s1, v.resetToken ≠ some tk := by
            intro v hv hvtk
            obtain ⟨w, hw, hvw⟩ := hstep v hv
            by_cases hid : w.userid = u.userid
            · rw [if_pos hid] at hvw
              rw [hvw] at hvtk
              cases hvtk
            · rw [if_neg hid] at hvw
              rw [hvw] at hvtk
              exact hid (huniq w hw u hmem hvtk htk)
          constructor
          · intro _hok
            refine ⟨rfl, ⟨u, hmem, htk, e0, hexp, hlt⟩,
              ⟨u, hmem, htk, ?_⟩, hnotk, ?_⟩
            · intro v hv hvid
              obtain ⟨w, hw, hvw⟩ := hstep v hv
              by_cases hid : w.userid = u.userid
              · rw [if_pos hid] at hvw
                rw [hvw]
                exact ⟨rfl, rfl, rfl⟩
              · rw [if_neg hid] at hvw
                rw [hvw] at hvid
                exact absurd hvid hid
            · have hfind2 : s1.find? (resetMatch tk now2) = none := by
                rw [List.find?_eq_none]
                intro v hv hvm
                exact hnotk v hv ((resetMatch_iff tk now2 v).mp hvm).1
              unfold ResetPassword
              rw [hpw2]
              simp only [Bool.not_true, Bool.false_eq_true, if_false]
              rw [hfind2]
          · intro hexpAll _
            have hle : e0 ≤ now := hexpAll u hmem htk e0 hexp
            exact absurd hlt (not_lt.mpr hle)

/-- Witness for `reset_token_single_use`: a concrete store with a live
token `"00ffab"`; the run at time 1000 succeeds and rewrites the record,
and the replay at time 2000 is rejected without touching the store. -/
theorem reset_token_single_use_witness :
    validatePasswordF (some "Newp2@") = true ∧
    ResetPassword 1000 "00ffab" (some "Newp1!")
        [⟨7, "a@b.com", "Abcd1!", "user", "+919876543210", some "00ffab",
          some 3601000⟩] =
      (.ok 200 "Password reset successfully",
       [⟨7, "a@b.com", "Newp1!", "user", "+919876543210", none, none⟩]) ∧
    (((∃ m, (ResetResult.ok 200 "Password reset successfully") = .ok 200 m) →
      validatePasswordF (some "Newp1!") = true ∧
      (∃ u ∈ ([⟨7, "a@b.com", "Abcd1!", "user", "+919876543210",
          some "00ffab", some 3601000⟩] : Store), u.resetToken = some "00ffab" ∧
        ∃ e, u.tokenExpiration = some e ∧ 1000 < e) ∧
      (∃ u ∈ ([⟨7, "a@b.com", "Abcd1!", "user", "+919876543210",
          some "00ffab", some 3601000⟩] : Store), u.resetToken = some "00ffab" ∧
        ∀ v ∈ ([⟨7, "a@b.com", "Newp1!", "user", "+919876543210", none,
            none⟩] : Store), v.userid = u.userid →
          v.password = (some "Newp1!").getD "" ∧ v.resetToken = none ∧
          v.tokenExpiration = none) ∧
      (∀ v ∈ ([⟨7, "a@b.com", "Newp1!", "user", "+919876543210", none,
          none⟩] : Store), v.resetToken ≠ some "00ffab") ∧
      ResetPassword 2000 "00ffab" (some "Newp2@")
          [⟨7, "a@b.com", "Newp1!", "user", "+919876543210", none, none⟩] =
        (.err 400 "Invalid or expired reset token.",
         [⟨7, "a@b.com", "Newp1!", "user", "+919876543210", none, none⟩])) ∧
    ((∀ u ∈ ([⟨7, "a@b.com", "Abcd1!", "user", "+919876543210",
        some "00ffab", some 3601000⟩] : Store), u.resetToken = some "00ffab" →
        ∀ e, u.tokenExpiration = some e → e ≤ 1000) →
      validatePasswordF (some "Newp1!") = true →
      (ResetResult.ok 200 "Password reset successfully") =
        .err 400 "Invalid or expired reset token." ∧
      ([⟨7, "a@b.com", "Newp1!", "user", "+919876543210", none, none⟩] : Store) =
        [⟨7, "a@b.com", "Abcd1!", "user", "+919876543210", some "00ffab",
          some 3601000⟩])) :=
  ⟨by decide, by decide,
   reset_token_single_use 1000 2000 "00ffab" (some "Newp1!") (some "Newp2@")
     [⟨7, "a@b.com", "Abcd1!", "user", "+919876543210", some "00ffab",
       some 3601000⟩]
     [⟨7, "a@b.com", "Newp1!", "user", "+919876543210", none, none⟩]
     (.ok 200 "Password reset successfully")
     (by decide) (by decide) (by decide)⟩

end PassAuth
